import Mathlib

/-!
A shallow embedding of the onespirit multi-tenant isolation mechanism and the
domain-entity validation rules: the context store, the scoped query managers
(`accounts/managers.py`, `clubs/models.py`), the tenant-resolution and
access-control middleware (`accounts/middleware.py`), and the `clean`
validation methods of `PaymentHistory`, `Club` and the membership-status
derivation of `MemberAccount` (`accounts/models.py`), together with theorems
settling the specification's claims against them.

Conventions: database rows are Lean structures holding the fields the
embedded code reads; primary keys and foreign keys are `Nat` ids; dates are
`Nat` day ordinals and datetimes `Int` timestamps; decimal amounts are `Int`
values in cents; querysets are lists; a Django manager method becomes a
function from the explicit state it reads (context store, row universe) to
the resulting list.
-/

namespace OneSpirit

/-- `accounts.models.TenantAccount`, restricted to the fields the isolation
mechanism and the club quota check read: primary key `id`, the unique
`tenant_slug`, the `is_active` flag, and the nullable positive-integer
`max_clubs` quota. -/
structure TenantAccount where
  id : Nat
  tenant_slug : String
  is_active : Bool
  max_clubs : Option Nat := none
deriving Repr, DecidableEq

/-- `organizations.models.Organization` as seen by the organization-aware
manager: only its primary key is read. -/
structure Organization where
  id : Nat
deriving Repr, DecidableEq

/-- `django.contrib.auth.models.User` as read by the middleware and the club
manager: primary key, the `is_superuser` flag, and whether the request user
is the `AnonymousUser` (`isinstance(request.user, AnonymousUser)`). -/
structure DjangoUser where
  id : Nat
  is_superuser : Bool
  is_anonymous : Bool
deriving Repr, DecidableEq

/-- The context store: the request-scoped context variables `_current_tenant`
and `_current_organization` (`accounts/managers.py`) and `_current_user`
(`clubs/models.py`).  Each slot holds a value or is empty. -/
structure ContextStore where
  current_tenant : Option TenantAccount := none
  current_organization : Option Organization := none
  current_user : Option DjangoUser := none
deriving Repr, DecidableEq

/-- `accounts.managers.get_current_tenant`. -/
def get_current_tenant (ctx : ContextStore) : Option TenantAccount :=
  ctx.current_tenant

/-- `accounts.managers.get_current_organization`. -/
def get_current_organization (ctx : ContextStore) : Option Organization :=
  ctx.current_organization

/-- `clubs.models.get_current_user`. -/
def get_current_user (ctx : ContextStore) : Option DjangoUser :=
  ctx.current_user

/-- The shape of an entity kind as the scoped managers see it: the optional
scoping fields, present exactly when the Django model `hasattr` the
corresponding attribute.  A field is embedded as the function taking a row to
the id of the referenced object. -/
structure ModelMeta (ρ : Type) where
  tenant_field : Option (ρ → Nat) := none
  organization_field : Option (ρ → Nat) := none

/-- `accounts.managers.TenantAwareManager.get_queryset`: start from the
unfiltered queryset (`all_objects` is the row universe) and, when a current
tenant is in context and the model has a `tenant` field, narrow to rows whose
tenant reference equals it. -/
def TenantAwareManager.get_queryset {ρ : Type} (meta : ModelMeta ρ)
    (ctx : ContextStore) (all_objects : List ρ) : List ρ :=
  match get_current_tenant ctx, meta.tenant_field with
  | some tenant, some f => all_objects.filter (fun r => f r == tenant.id)
  | _, _ => all_objects

/-- `accounts.managers.OrganizationAwareManager.get_queryset`: the tenant
filtering of the parent manager, then, when a current organization is in
context and the model has an `organization` field, a further narrowing to
that organization. -/
def OrganizationAwareManager.get_queryset {ρ : Type} (meta : ModelMeta ρ)
    (ctx : ContextStore) (all_objects : List ρ) : List ρ :=
  let queryset := TenantAwareManager.get_queryset meta ctx all_objects
  match get_current_organization ctx, meta.organization_field with
  | some organization, some f => queryset.filter (fun r => f r == organization.id)
  | _, _ => queryset

/-- C1: for an entity kind carrying a tenant reference, the default queryset
with tenant T in context is exactly the subset of the unfiltered universe
whose tenant reference equals T, and with the tenant slot empty it is the
unfiltered universe unchanged. -/
theorem C1_scoped_query_filter {ρ : Type} (meta : ModelMeta ρ) (f : ρ → Nat)
    (t : TenantAccount) (all_objects : List ρ) (ctx : ContextStore)
    (hf : meta.tenant_field = some f) :
    (get_current_tenant ctx = some t →
      ∀ r, r ∈ TenantAwareManager.get_queryset meta ctx all_objects ↔
        r ∈ all_objects ∧ f r = t.id) ∧
    (get_current_tenant ctx = none →
      TenantAwareManager.get_queryset meta ctx all_objects = all_objects) := by
  constructor
  · intro ht r
    simp [TenantAwareManager.get_queryset, ht, hf, List.mem_filter]
  · intro ht
    simp [TenantAwareManager.get_queryset, ht, hf]

/-- Sample row type for the witnesses: first component the tenant id, second
the organization id. -/
def exMeta : ModelMeta (Nat × Nat) :=
  { tenant_field := some Prod.fst, organization_field := some Prod.snd }

/-- Sample tenant used by the witnesses. -/
def exTenant : TenantAccount :=
  { id := 1, tenant_slug := "acme", is_active := true }

/-- Sample context with tenant `exTenant` set and the other slots empty. -/
def exCtx : ContextStore := { current_tenant := some exTenant }

/-- Witness for C1 at a concrete model: with tenant id 1 in context, row
(1, 5) is kept and row (2, 6) is dropped; with no tenant the universe is
returned unchanged. -/
theorem C1_scoped_query_filter_witness :
    ((1, 5) ∈ TenantAwareManager.get_queryset exMeta exCtx [(1, 5), (2, 6)]) ∧
    ¬ ((2, 6) ∈ TenantAwareManager.get_queryset exMeta exCtx [(1, 5), (2, 6)]) ∧
    TenantAwareManager.get_queryset exMeta { } [(1, 5), (2, 6)] = [(1, 5), (2, 6)] := by
  refine ⟨?_, ?_, ?_⟩
  · exact ((C1_scoped_query_filter exMeta Prod.fst exTenant [(1, 5), (2, 6)] exCtx
      rfl).1 rfl (1, 5)).2 ⟨by decide, rfl⟩
  · intro h
    have := ((C1_scoped_query_filter exMeta Prod.fst exTenant [(1, 5), (2, 6)] exCtx
      rfl).1 rfl (2, 6)).1 h
    simp [exTenant] at this
  · exact (C1_scoped_query_filter exMeta Prod.fst exTenant [(1, 5), (2, 6)] { }
      rfl).2 rfl

/-- C10: the organization-aware queryset narrows to the context organization
even when the tenant slot is empty — organization narrowing does not require
a tenant context. -/
theorem C10_organization_filter_without_tenant {ρ : Type} (meta : ModelMeta ρ)
    (g : ρ → Nat) (o : Organization) (all_objects : List ρ) (ctx : ContextStore)
    (hg : meta.organization_field = some g)
    (ht : get_current_tenant ctx = none)
    (ho : get_current_organization ctx = some o) :
    ∀ r, r ∈ OrganizationAwareManager.get_queryset meta ctx all_objects ↔
      r ∈ all_objects ∧ g r = o.id := by
  intro r
  rcases htf : meta.tenant_field with _ | f <;>
    simp [OrganizationAwareManager.get_queryset, TenantAwareManager.get_queryset,
      ht, ho, hg, htf, List.mem_filter]

/-- Witness for C10: organization id 5 in context, empty tenant slot; row
(1, 5) is kept, row (1, 6) is dropped. -/
theorem C10_organization_filter_without_tenant_witness :
    ((1, 5) ∈ OrganizationAwareManager.get_queryset exMeta
        { current_organization := some { id := 5 } } [(1, 5), (1, 6)]) ∧
    ¬ ((1, 6) ∈ OrganizationAwareManager.get_queryset exMeta
        { current_organization := some { id := 5 } } [(1, 5), (1, 6)]) := by
  constructor
  · exact (C10_organization_filter_without_tenant exMeta Prod.snd { id := 5 }
      [(1, 5), (1, 6)] { current_organization := some { id := 5 } } rfl rfl rfl
      (1, 5)).2 ⟨by decide, rfl⟩
  · intro h
    have := (C10_organization_filter_without_tenant exMeta Prod.snd { id := 5 }
      [(1, 5), (1, 6)] { current_organization := some { id := 5 } } rfl rfl rfl
      (1, 6)).1 h
    simp at this

/-! ## Tenant slug cache (`accounts.managers.TenantCacheManager`) -/

/-- The shared cache as the slug lookup uses it: a key/value map whose stored
values are `Option TenantAccount` — `none` is the explicit "not found"
sentinel written by the negative branch.  All reads in the claims happen
within the 300 s TTL, so entries do not expire in the model. -/
abbrev TenantCache := List (String × Option TenantAccount)

/-- `django.core.cache.cache.get key`: the stored value when an entry for the
key exists, else `None`.  A stored `None` sentinel and a plain miss are
indistinguishable to the caller, exactly as in the backend API. -/
def cache_get (c : TenantCache) (key : String) : Option TenantAccount :=
  match c.find? (fun e => e.fst == key) with
  | some e => e.snd
  | none => none

/-- `cache.set key value timeout`: overwrite the entry for the key. -/
def cache_set (c : TenantCache) (key : String) (v : Option TenantAccount) :
    TenantCache :=
  (key, v) :: c.filter (fun e => !(e.fst == key))

/-- Result of one `get_tenant_by_slug` call: the returned tenant, the cache
afterwards, and how many times the durable store was queried (0 or 1). -/
structure SlugLookupResult where
  result : Option TenantAccount
  cache : TenantCache
  db_queries : Nat
deriving Repr, DecidableEq

/-- `accounts.managers.TenantCacheManager.get_tenant_by_slug`: read the cache
under key `tenant_slug_SLUG`; the Python guard is `if not tenant`, so both a
miss and a cached `None` sentinel fall into the query branch.  The durable
store is queried filtering on `(tenant_slug, is_active=True)`; a hit is
cached, a `DoesNotExist` caches the `None` sentinel and returns `None`. -/
def TenantCacheManager.get_tenant_by_slug (db : List TenantAccount)
    (c : TenantCache) (slug : String) : SlugLookupResult :=
  let cache_key := "tenant_slug_" ++ slug
  match cache_get c cache_key with
  | some tenant => ⟨some tenant, c, 0⟩
  | none =>
      match db.find? (fun t => t.tenant_slug == slug && t.is_active) with
      | some tenant => ⟨some tenant, cache_set c cache_key (some tenant), 1⟩
      | none => ⟨none, cache_set c cache_key none, 1⟩

/-- C2 (counterexample, code bug): against a store with no active tenant of
slug "acme", the first lookup queries the durable store and writes the "not
found" sentinel into the cache — yet the second lookup on the resulting
cache queries the durable store again (`db_queries = 1`), because `if not
tenant` cannot tell the cached `None` sentinel from a cache miss, defeating
the sentinel the code itself writes "to avoid repeated DB hits".  When the
first lookup finds a tenant the claim does hold: the second lookup answers
from the cache with no durable-store query. -/
theorem C2_negative_sentinel_requeries_store :
    (TenantCacheManager.get_tenant_by_slug [] [] "acme").db_queries = 1 ∧
    (TenantCacheManager.get_tenant_by_slug [] [] "acme").cache =
      [("tenant_slug_acme", none)] ∧
    (TenantCacheManager.get_tenant_by_slug []
      (TenantCacheManager.get_tenant_by_slug [] [] "acme").cache "acme").db_queries = 1 ∧
    (TenantCacheManager.get_tenant_by_slug [exTenant] [] "acme").result = some exTenant ∧
    (TenantCacheManager.get_tenant_by_slug [exTenant]
      (TenantCacheManager.get_tenant_by_slug [exTenant] [] "acme").cache "acme").db_queries = 0 ∧
    (TenantCacheManager.get_tenant_by_slug [exTenant]
      (TenantCacheManager.get_tenant_by_slug [exTenant] [] "acme").cache "acme").result =
      some exTenant := by
  decide

/-! ## Access-control middleware (`accounts.middleware`) -/

/-- Modelled from the spec: `people.models.UserProfile` is imported by
`accounts.middleware` (and by the test suite) but no class of that name is
defined in the source tree; only the sibling `LoginUser` is — the spec's
"two divergent, seemingly competing implementations of the same user/login
concept".  Per the spec, the profile links a Django user to a contact and
offers the capability check `can_access_tenant`, which `LoginUser`
implements as "the profile's contact belongs to that tenant"
(`self.contact.tenant == tenant`). -/
structure UserProfile where
  user_id : Nat
  contact_tenant_id : Option Nat
deriving Repr, DecidableEq

/-- Modelled from the spec: the `can_access_tenant` capability check, as
implemented by `LoginUser.can_access_tenant` — the profile's contact's
tenant equals the given tenant. -/
def UserProfile.can_access_tenant (p : UserProfile) (t : TenantAccount) : Bool :=
  p.contact_tenant_id == some t.id

/-- The request-fatal forbidden outcome (`django.core.exceptions.PermissionDenied`). -/
inductive PermissionDeniedError
  | permission_denied
deriving Repr, DecidableEq

/-- `TenantAccessControlMiddleware._user_can_access_tenant`: superusers
always pass; otherwise look up the user's profile and consult its
`can_access_tenant` capability (`hasattr(user_profile, "can_access_tenant")`
is always true for the profile model, so the service-layer fallback is
unreachable); a user with no profile row is denied. -/
def user_can_access_tenant (profiles : List UserProfile) (user : DjangoUser)
    (tenant : TenantAccount) : Bool :=
  if user.is_superuser then true
  else
    match profiles.find? (fun p => p.user_id == user.id) with
    | some user_profile => user_profile.can_access_tenant tenant
    | none => false

/-- `TenantAccessControlMiddleware.__call__`: when the request carries a
tenant and the user is not anonymous, a failed access check raises
`PermissionDenied` before `get_response` runs; otherwise the wrapped
response is produced. -/
def TenantAccessControlMiddleware.call {α : Type} (profiles : List UserProfile)
    (request_tenant : Option TenantAccount) (user : DjangoUser)
    (get_response : α) : Except PermissionDeniedError α :=
  match request_tenant with
  | some tenant =>
      if !user.is_anonymous then
        if user_can_access_tenant profiles user tenant then Except.ok get_response
        else Except.error .permission_denied
      else Except.ok get_response
  | none => Except.ok get_response

/-- C3: with a tenant attached and an authenticated actor, superusers pass
unconditionally; any other actor with a profile row is aborted with
`PermissionDenied` before the request is handled exactly when the profile's
`can_access_tenant` check fails; requests with no attached tenant, or with
an anonymous actor, are never aborted by this interceptor. -/
theorem C3_access_control {α : Type} (profiles : List UserProfile)
    (t : TenantAccount) (u : DjangoUser) (p : UserProfile)
    (rt : Option TenantAccount) (resp : α) :
    (u.is_anonymous = false → u.is_superuser = true →
      TenantAccessControlMiddleware.call profiles (some t) u resp =
        Except.ok resp) ∧
    (u.is_anonymous = false → u.is_superuser = false →
      profiles.find? (fun q => q.user_id == u.id) = some p →
      (TenantAccessControlMiddleware.call profiles (some t) u resp =
          Except.error .permission_denied ↔
        p.can_access_tenant t = false)) ∧
    (TenantAccessControlMiddleware.call profiles none u resp = Except.ok resp) ∧
    (u.is_anonymous = true →
      TenantAccessControlMiddleware.call profiles rt u resp = Except.ok resp) := by
  refine ⟨?_, ?_, ?_, ?_⟩
  · intro ha hs
    simp [TenantAccessControlMiddleware.call, user_can_access_tenant, ha, hs]
  · intro ha hs hp
    rcases hacc : p.can_access_tenant t with _ | _ <;>
      simp [TenantAccessControlMiddleware.call, user_can_access_tenant,
        ha, hs, hp, hacc]
  · rfl
  · intro ha
    rcases rt with _ | t' <;>
      simp [TenantAccessControlMiddleware.call, ha]

/-- Profile used by the access-control witnesses: Django user 3, whose
contact belongs to tenant 2. -/
def exProfile : UserProfile := { user_id := 3, contact_tenant_id := some 2 }

/-- Non-superuser authenticated actor used by the witnesses. -/
def exMember : DjangoUser := { id := 3, is_superuser := false, is_anonymous := false }

/-- Witness for C3: the actor's contact belongs to tenant 2, the request
resolved tenant 1, so the middleware aborts with the forbidden outcome; with
no attached tenant the same actor passes through. -/
theorem C3_access_control_witness :
    TenantAccessControlMiddleware.call [exProfile] (some exTenant) exMember (0 : Nat) =
      Except.error .permission_denied ∧
    TenantAccessControlMiddleware.call [exProfile] none exMember (0 : Nat) =
      Except.ok 0 := by
  constructor
  · exact ((C3_access_control [exProfile] exTenant exMember exProfile none
      (0 : Nat)).2.1 rfl rfl (by decide)).2 (by decide)
  · exact (C3_access_control [exProfile] exTenant exMember exProfile none
      (0 : Nat)).2.2.1

/-! ## Clubs (`clubs/models.py`) -/

/-- `clubs.models.Club`, restricted to the fields its manager and `clean`
read: primary key (`none` before the first save), name, owning tenant, and
the two social-media handles validated by `clean`. -/
structure Club where
  pk : Option Nat
  name : String
  tenant_id : Nat
  instagram_handle : String := ""
  twitter_handle : String := ""
deriving Repr, DecidableEq

/-- `clubs.models.ClubStaff` rows as read by the user-based filter: the
club and contact foreign keys and the `is_active` flag. -/
structure ClubStaff where
  pk : Nat
  club_id : Nat
  contact_id : Nat
  is_active : Bool
deriving Repr, DecidableEq

/-- `people.models.LoginUser`, restricted to the fields the club manager
reads: the Django user and contact one-to-one keys and the
`permissions_level` choice string. -/
structure LoginUser where
  user_id : Nat
  contact_id : Nat
  permissions_level : String
deriving Repr, DecidableEq

/-- The durable-store rows the club-related manager consults: the club table
(for the `club__tenant` join), the unfiltered `ClubStaff.all_objects`
universe, and the `LoginUser` table. -/
structure ClubsDB where
  clubs : List Club
  club_staff : List ClubStaff
  login_users : List LoginUser
deriving Repr, DecidableEq

/-- The `club__tenant` join: the tenant id of the club a row points at. -/
def club_tenant_id (db : ClubsDB) (cid : Nat) : Option Nat :=
  (db.clubs.find? (fun c => c.pk == some cid)).map Club.tenant_id

/-- `ClubStaff.all_objects.filter(contact__login_user=login_user,
is_active=True).values_list("club_id", flat=True)`: the clubs on which the
login user's contact has an active staff assignment. -/
def active_staff_club_ids (db : ClubsDB) (login_user : LoginUser) : List Nat :=
  (db.club_staff.filter
    (fun s => s.contact_id == login_user.contact_id && s.is_active)).map
    ClubStaff.club_id

/-- `clubs.models.ClubRelatedManager.get_queryset` for an entity kind with a
`club` foreign key (`club_of` maps a row to its club id; both registered
kinds, `ClubStaff` and `ClubMember`, have the `club` ForeignKey, so the
`FieldDoesNotExist` and non-ForeignKey early returns never fire).  Tenant
context filters rows through `club__tenant`; with both a user and a tenant
in context, a user whose `LoginUser` row is missing gets the empty queryset,
a superuser or `"admin"`-level user is left unfiltered, and any other user
is narrowed to the clubs of their active staff assignments — the empty
queryset when they have none. -/
def ClubRelatedManager.get_queryset {ρ : Type} (club_of : ρ → Nat)
    (db : ClubsDB) (ctx : ContextStore) (all_objects : List ρ) : List ρ :=
  let tenant := get_current_tenant ctx
  let user := get_current_user ctx
  let queryset :=
    match tenant with
    | some t => all_objects.filter (fun r => club_tenant_id db (club_of r) == some t.id)
    | none => all_objects
  match user, tenant with
  | some u, some _ =>
      match db.login_users.find? (fun lu => lu.user_id == u.id) with
      | some login_user =>
          if u.is_superuser || login_user.permissions_level == "admin" then
            queryset
          else
            let user_club_ids := active_staff_club_ids db login_user
            if user_club_ids.isEmpty then []
            else queryset.filter (fun r => user_club_ids.contains (club_of r))
      | none => []
  | _, _ => queryset

/-- C4 (counterexample): a superuser with no `LoginUser` row is NOT exempt
from the user-based narrowing — with tenant 1 and that superuser in context
the manager returns the empty list, although the tenant filter alone keeps
the row. -/
def cxSuper : DjangoUser := { id := 9, is_superuser := true, is_anonymous := false }

/-- Clubs database for the C4 counterexample: one club of tenant 1, one
active staff row on it, and no `LoginUser` rows at all. -/
def cxDB : ClubsDB :=
  { clubs := [{ pk := some 10, name := "dojo", tenant_id := 1 }],
    club_staff := [{ pk := 100, club_id := 10, contact_id := 7, is_active := true }],
    login_users := [] }

/-- Context for the C4 counterexample: tenant 1 and the profile-less
superuser both set. -/
def cxCtx : ContextStore :=
  { current_tenant := some exTenant, current_user := some cxSuper }

/-- C4 as frozen is false: superusers are claimed exempt from user-based
narrowing, but a superuser without a `LoginUser` row takes the
`LoginUser.DoesNotExist` branch and receives the empty queryset, even though
the tenant filter alone would keep the staff row. -/
theorem C4_superuser_without_profile_not_exempt :
    ClubRelatedManager.get_queryset ClubStaff.club_id cxDB cxCtx
      [{ pk := 100, club_id := 10, contact_id := 7, is_active := true }] = [] ∧
    List.filter
      (fun r => club_tenant_id cxDB (ClubStaff.club_id r) == some exTenant.id)
      [{ pk := 100, club_id := 10, contact_id := 7, is_active := true }] =
      [{ pk := 100, club_id := 10, contact_id := 7, is_active := true }] ∧
    ClubRelatedManager.get_queryset ClubStaff.club_id cxDB cxCtx
      [{ pk := 100, club_id := 10, contact_id := 7, is_active := true }] ≠
    List.filter
      (fun r => club_tenant_id cxDB (ClubStaff.club_id r) == some exTenant.id)
      [{ pk := 100, club_id := 10, contact_id := 7, is_active := true }] := by
  decide

/-- C4 (amended): with tenant and user context both set, an acting user
whose `LoginUser` row exists and who is neither superuser nor
`"admin"`-level sees exactly the tenant rows whose club carries one of their
active staff assignments — the empty set when they have none; a superuser or
`"admin"`-level user WITH a `LoginUser` row is exempt from the user-based
narrowing; and with no tenant context no user-based narrowing applies at
all. -/
theorem C4_user_based_narrowing {ρ : Type} (club_of : ρ → Nat) (db : ClubsDB)
    (ctx : ContextStore) (all_objects : List ρ) (u : DjangoUser)
    (t : TenantAccount) (lu : LoginUser) :
    (get_current_user ctx = some u → get_current_tenant ctx = some t →
      db.login_users.find? (fun q => q.user_id == u.id) = some lu →
      u.is_superuser = false → lu.permissions_level ≠ "admin" →
      ∀ r, r ∈ ClubRelatedManager.get_queryset club_of db ctx all_objects ↔
        r ∈ all_objects ∧ club_tenant_id db (club_of r) = some t.id ∧
          club_of r ∈ active_staff_club_ids db lu) ∧
    (get_current_user ctx = some u → get_current_tenant ctx = some t →
      db.login_users.find? (fun q => q.user_id == u.id) = some lu →
      (u.is_superuser = true ∨ lu.permissions_level = "admin") →
      ClubRelatedManager.get_queryset club_of db ctx all_objects =
        all_objects.filter
          (fun r => club_tenant_id db (club_of r) == some t.id)) ∧
    (get_current_tenant ctx = none →
      ClubRelatedManager.get_queryset club_of db ctx all_objects =
        all_objects) := by
  refine ⟨?_, ?_, ?_⟩
  · intro hu ht hlu hsu hlvl r
    rcases hids : (active_staff_club_ids db lu).isEmpty with _ | _
    · simp only [List.isEmpty_eq_false_iff_exists_mem] at hids
      simp [ClubRelatedManager.get_queryset, hu, ht, hlu, hsu, hlvl,
        List.isEmpty_eq_false_iff_exists_mem.2 hids, List.mem_filter,
        and_assoc, and_comm]
    · have hnil : active_staff_club_ids db lu = [] :=
        List.isEmpty_iff.1 hids
      simp [ClubRelatedManager.get_queryset, hu, ht, hlu, hsu, hlvl,
        hids, hnil]
  · intro hu ht hlu hadm
    rcases hadm with hsu | hlvl
    · simp [ClubRelatedManager.get_queryset, hu, ht, hlu, hsu]
    · simp [ClubRelatedManager.get_queryset, hu, ht, hlu, hlvl]
  · intro ht
    rcases hu : get_current_user ctx with _ | u' <;>
      simp [ClubRelatedManager.get_queryset, ht, hu]

/-- Login profile for the C4/C9 witnesses: Django user 3, contact 7,
plain member level. -/
def exLogin : LoginUser := { user_id := 3, contact_id := 7, permissions_level := "member" }

/-- Clubs database for the C4 witness: two clubs of tenant 1; the acting
user's contact has an active staff assignment only on club 10. -/
def wDB : ClubsDB :=
  { clubs := [{ pk := some 10, name := "dojo", tenant_id := 1 },
               { pk := some 11, name := "gym", tenant_id := 1 }],
    club_staff := [{ pk := 100, club_id := 10, contact_id := 7, is_active := true },
                   { pk := 101, club_id := 11, contact_id := 8, is_active := true }],
    login_users := [exLogin] }

/-- Context for the C4 witness: tenant 1 and the member-level user 3. -/
def wCtx : ContextStore :=
  { current_tenant := some exTenant,
    current_user := some { id := 3, is_superuser := false, is_anonymous := false } }

/-- Witness for the amended C4: the member-level user sees the staff row on
their own club 10 and not the row on club 11. -/
theorem C4_user_based_narrowing_witness :
    ({ pk := 100, club_id := 10, contact_id := 7, is_active := true } : ClubStaff) ∈
      ClubRelatedManager.get_queryset ClubStaff.club_id wDB wCtx
        [{ pk := 100, club_id := 10, contact_id := 7, is_active := true },
         { pk := 101, club_id := 11, contact_id := 8, is_active := true }] ∧
    ¬ (({ pk := 101, club_id := 11, contact_id := 8, is_active := true } : ClubStaff) ∈
      ClubRelatedManager.get_queryset ClubStaff.club_id wDB wCtx
        [{ pk := 100, club_id := 10, contact_id := 7, is_active := true },
         { pk := 101, club_id := 11, contact_id := 8, is_active := true }]) := by
  constructor
  · exact ((C4_user_based_narrowing ClubStaff.club_id wDB wCtx
      [{ pk := 100, club_id := 10, contact_id := 7, is_active := true },
       { pk := 101, club_id := 11, contact_id := 8, is_active := true }]
      { id := 3, is_superuser := false, is_anonymous := false } exTenant exLogin).1
      rfl rfl (by decide) rfl (by decide)
      { pk := 100, club_id := 10, contact_id := 7, is_active := true }).2
      ⟨by decide, by decide, by decide⟩
  · intro h
    have := ((C4_user_based_narrowing ClubStaff.club_id wDB wCtx
      [{ pk := 100, club_id := 10, contact_id := 7, is_active := true },
       { pk := 101, club_id := 11, contact_id := 8, is_active := true }]
      { id := 3, is_superuser := false, is_anonymous := false } exTenant exLogin).1
      rfl rfl (by decide) rfl (by decide)
      { pk := 101, club_id := 11, contact_id := 8, is_active := true }).1 h
    revert this
    decide

/-- C9: with tenant and user context both set, a non-superuser acting user
with no `LoginUser` row at all receives the empty queryset, never the
tenant-wide or unfiltered one. -/
theorem C9_missing_profile_empty_queryset {ρ : Type} (club_of : ρ → Nat)
    (db : ClubsDB) (ctx : ContextStore) (all_objects : List ρ)
    (u : DjangoUser) (t : TenantAccount)
    (hu : get_current_user ctx = some u)
    (ht : get_current_tenant ctx = some t)
    (hsu : u.is_superuser = false)
    (hnone : db.login_users.find? (fun lu => lu.user_id == u.id) = none) :
    ClubRelatedManager.get_queryset club_of db ctx all_objects = [] := by
  simp [ClubRelatedManager.get_queryset, hu, ht, hnone]

/-- Witness for C9: a non-superuser user 4 with no `LoginUser` row gets the
empty list even though the universe holds a staff row of the context
tenant. -/
theorem C9_missing_profile_empty_queryset_witness :
    ClubRelatedManager.get_queryset ClubStaff.club_id wDB
      { current_tenant := some exTenant,
        current_user := some { id := 4, is_superuser := false, is_anonymous := false } }
      [{ pk := 100, club_id := 10, contact_id := 7, is_active := true }] = [] :=
  C9_missing_profile_empty_queryset ClubStaff.club_id wDB
    { current_tenant := some exTenant,
      current_user := some { id := 4, is_superuser := false, is_anonymous := false } }
    [{ pk := 100, club_id := 10, contact_id := 7, is_active := true }]
    { id := 4, is_superuser := false, is_anonymous := false } exTenant
    rfl rfl rfl (by decide)

/-! ## Tenant resolution (`accounts.middleware.TenantContextMiddleware`)

The resolver manipulates the request host and path with Python's `lower`,
`startswith`, `split` and `strip`; these are embedded below as structurally
recursive functions over the character list of a `String` so that concrete
inputs evaluate. -/

/-- Python `str.lower()` (over the ASCII hosts the resolver sees). -/
def str_lower (s : String) : String :=
  String.mk (s.data.map Char.toLower)

/-- Whether one character list begins with another. -/
def starts_with_chars : List Char → List Char → Bool
  | _, [] => true
  | [], _ :: _ => false
  | c :: cs, d :: ds => c == d && starts_with_chars cs ds

/-- Python `str.startswith(pat)`. -/
def starts_with (s pat : String) : Bool :=
  starts_with_chars s.data pat.data

/-- Split a character list on a separator character. -/
def split_on_char (ch : Char) : List Char → List (List Char)
  | [] => [[]]
  | c :: rest =>
      let r := split_on_char ch rest
      if c == ch then [] :: r
      else
        match r with
        | h :: t => (c :: h) :: t
        | [] => [[c]]

/-- Python `str.split(ch)` for a one-character separator, as used for the
host (`"."`) and the path (`"/"`). -/
def split_on (s : String) (ch : Char) : List String :=
  (split_on_char ch s.data).map String.mk

/-- Python `str.strip(ch)`: remove every leading and trailing occurrence of
the character. -/
def strip_char (s : String) (ch : Char) : String :=
  String.mk
    (((s.data.dropWhile (fun a => a == ch)).reverse.dropWhile
      (fun a => a == ch)).reverse)

/-- The reserved first segments that never resolve to a tenant. -/
def reserved_subdomains : List String := ["www", "api", "admin", "static", "media"]

/-- The inbound request signals the resolver reads: the `Host` header, the
URL path, whether a session is attached (`hasattr(request, "session")`), and
the session's `selected_tenant_id` entry. -/
structure HttpRequest where
  host : String
  path : String
  has_session : Bool := true
  session_selected_tenant_id : Option Nat := none
deriving Repr, DecidableEq

/-- `TenantContextMiddleware._get_tenant_from_subdomain`: lowercase the
host; skip loopback/dev hosts; split on `.`; with at least three segments
whose first is not reserved, look the first segment up as a slug through the
cache.  Returns the resolved tenant (if any) and the cache afterwards. -/
def TenantContextMiddleware.get_tenant_from_subdomain
    (db : List TenantAccount) (c : TenantCache) (request : HttpRequest) :
    Option TenantAccount × TenantCache :=
  let host := str_lower request.host
  if starts_with host "localhost" || starts_with host "127.0.0.1" ||
      starts_with host "0.0.0.0" then
    (none, c)
  else
    let parts := split_on host '.'
    if parts.length ≥ 3 then
      let subdomain := parts.headD ""
      if reserved_subdomains.contains subdomain then (none, c)
      else
        let res := TenantCacheManager.get_tenant_by_slug db c subdomain
        (res.result, res.cache)
    else (none, c)

/-- `TenantContextMiddleware._get_tenant_from_path`: strip surrounding `/`
from the path, split on `/`, and on a `tenant/SLUG/...` shape look the slug
up through the cache. -/
def TenantContextMiddleware.get_tenant_from_path
    (db : List TenantAccount) (c : TenantCache) (request : HttpRequest) :
    Option TenantAccount × TenantCache :=
  let path_parts := split_on (strip_char request.path '/') '/'
  if path_parts.length ≥ 2 && path_parts.headD "" == "tenant" then
    let tenant_slug := path_parts.getD 1 ""
    let res := TenantCacheManager.get_tenant_by_slug db c tenant_slug
    (res.result, res.cache)
  else (none, c)

/-- `TenantContextMiddleware._get_tenant_from_session`: read
`selected_tenant_id` (primary keys are positive, so Python's `if tenant_id`
truthiness coincides with presence); fetch the tenant with that id and
`is_active=True`; on `DoesNotExist` pop the stale session entry and resolve
to nothing.  Returns the resolved tenant and the session entry
afterwards. -/
def TenantContextMiddleware.get_tenant_from_session
    (db : List TenantAccount) (request : HttpRequest) :
    Option TenantAccount × Option Nat :=
  if request.has_session then
    match request.session_selected_tenant_id with
    | some tenant_id =>
        match db.find? (fun t => t.id == tenant_id && t.is_active) with
        | some tenant => (some tenant, some tenant_id)
        | none => (none, none)
    | none => (none, none)
  else (none, request.session_selected_tenant_id)

/-- The mutable request state after resolution: the slug cache and the
session's `selected_tenant_id` entry. -/
structure ResolveState where
  cache : TenantCache
  session_selected_tenant_id : Option Nat
deriving Repr, DecidableEq

/-- `TenantContextMiddleware.get_tenant_from_request`: try subdomain, then
URL path, then session, first hit winning; the slug cache is threaded
through the strategies. -/
def TenantContextMiddleware.get_tenant_from_request
    (db : List TenantAccount) (c : TenantCache) (request : HttpRequest) :
    Option TenantAccount × ResolveState :=
  match TenantContextMiddleware.get_tenant_from_subdomain db c request with
  | (some tenant, c1) => (some tenant, ⟨c1, request.session_selected_tenant_id⟩)
  | (none, c1) =>
      match TenantContextMiddleware.get_tenant_from_path db c1 request with
      | (some tenant, c2) => (some tenant, ⟨c2, request.session_selected_tenant_id⟩)
      | (none, c2) =>
          let s3 := TenantContextMiddleware.get_tenant_from_session db request
          (s3.1, ⟨c2, s3.2⟩)

/-- C5: resolution tries subdomain, then URL path, then session, the first
strategy yielding a tenant winning; the subdomain strategy yields a tenant
only on a non-loopback host with at least three dot-separated segments whose
first segment is not reserved; and a session entry naming no still-active
tenant is purged while resolution proceeds as if unset rather than
failing. -/
theorem C5_tenant_resolution (db : List TenantAccount) (c : TenantCache)
    (request : HttpRequest) (t : TenantAccount) (i : Nat) :
    (∀ c1, TenantContextMiddleware.get_tenant_from_subdomain db c request =
        (some t, c1) →
      (TenantContextMiddleware.get_tenant_from_request db c request).1 = some t) ∧
    (∀ c1 c2, TenantContextMiddleware.get_tenant_from_subdomain db c request =
        (none, c1) →
      TenantContextMiddleware.get_tenant_from_path db c1 request = (some t, c2) →
      (TenantContextMiddleware.get_tenant_from_request db c request).1 = some t) ∧
    (∀ c1 c2, TenantContextMiddleware.get_tenant_from_subdomain db c request =
        (none, c1) →
      TenantContextMiddleware.get_tenant_from_path db c1 request = (none, c2) →
      (TenantContextMiddleware.get_tenant_from_request db c request).1 =
        (TenantContextMiddleware.get_tenant_from_session db request).1 ∧
      (TenantContextMiddleware.get_tenant_from_request db c
          request).2.session_selected_tenant_id =
        (TenantContextMiddleware.get_tenant_from_session db request).2) ∧
    (∀ c1, TenantContextMiddleware.get_tenant_from_subdomain db c request =
        (some t, c1) →
      (split_on (str_lower request.host) '.').length ≥ 3 ∧
      reserved_subdomains.contains
        ((split_on (str_lower request.host) '.').headD "") = false ∧
      starts_with (str_lower request.host) "localhost" = false ∧
      starts_with (str_lower request.host) "127.0.0.1" = false ∧
      starts_with (str_lower request.host) "0.0.0.0" = false) ∧
    (request.has_session = true →
      request.session_selected_tenant_id = some i →
      db.find? (fun a => a.id == i && a.is_active) = none →
      (TenantContextMiddleware.get_tenant_from_session db request).1 = none ∧
      (TenantContextMiddleware.get_tenant_from_session db request).2 = none) := by
  refine ⟨?_, ?_, ?_, ?_, ?_⟩
  · intro c1 h1
    simp only [TenantContextMiddleware.get_tenant_from_request, h1]
  · intro c1 c2 h1 h2
    simp only [TenantContextMiddleware.get_tenant_from_request, h1, h2]
  · intro c1 c2 h1 h2
    simp only [TenantContextMiddleware.get_tenant_from_request, h1, h2]
    exact ⟨trivial, trivial⟩
  · intro c1 h1
    revert h1
    unfold TenantContextMiddleware.get_tenant_from_subdomain
    rcases hlo : (starts_with (str_lower request.host) "localhost" ||
        starts_with (str_lower request.host) "127.0.0.1" ||
        starts_with (str_lower request.host) "0.0.0.0") with _ | _
    · simp only [hlo, Bool.false_eq_true, if_false]
      by_cases hlen : (split_on (str_lower request.host) '.').length ≥ 3
      · rcases hres : reserved_subdomains.contains
            ((split_on (str_lower request.host) '.').headD "") with _ | _
        · intro _
          simp only [Bool.or_eq_false_iff] at hlo
          exact ⟨hlen, rfl, hlo.1.1, hlo.1.2, hlo.2⟩
        · simp [hlen, hres]
      · simp [hlen]
    · simp [hlo]
  · intro hs hi hf
    simp [TenantContextMiddleware.get_tenant_from_session, hs, hi, hf]

/-- Witness for C5: host `acme.onespirit.com` resolves tenant "acme" by
subdomain against a store holding it; host `www.onespirit.com` with path
`/admin/` and a stale session entry 42 resolves nothing and purges the
session entry. -/
theorem C5_tenant_resolution_witness :
    (TenantContextMiddleware.get_tenant_from_request [exTenant] []
      { host := "acme.onespirit.com", path := "/" }).1 = some exTenant ∧
    (TenantContextMiddleware.get_tenant_from_request [exTenant] []
      { host := "www.onespirit.com", path := "/admin/",
        session_selected_tenant_id := some 42 }).1 = none ∧
    (TenantContextMiddleware.get_tenant_from_request [exTenant] []
      { host := "www.onespirit.com", path := "/admin/",
        session_selected_tenant_id := some 42 }).2.session_selected_tenant_id =
      none := by
  refine ⟨?_, ?_, ?_⟩
  · exact (C5_tenant_resolution [exTenant] []
      { host := "acme.onespirit.com", path := "/" } exTenant 0).1
      (TenantCacheManager.get_tenant_by_slug [exTenant] [] "acme").cache
      (by decide)
  · have h3 := ((C5_tenant_resolution [exTenant] []
      { host := "www.onespirit.com", path := "/admin/",
        session_selected_tenant_id := some 42 } exTenant 42).2.2.1 [] []
      (by decide) (by decide))
    have h5 := ((C5_tenant_resolution [exTenant] []
      { host := "www.onespirit.com", path := "/admin/",
        session_selected_tenant_id := some 42 } exTenant 42).2.2.2.2 rfl rfl
      (by decide))
    rw [h3.1, h5.1]
  · have h3 := ((C5_tenant_resolution [exTenant] []
      { host := "www.onespirit.com", path := "/admin/",
        session_selected_tenant_id := some 42 } exTenant 42).2.2.1 [] []
      (by decide) (by decide))
    have h5 := ((C5_tenant_resolution [exTenant] []
      { host := "www.onespirit.com", path := "/admin/",
        session_selected_tenant_id := some 42 } exTenant 42).2.2.2.2 rfl rfl
      (by decide))
    rw [h3.2, h5.2]

/-! ## Payment history validation (`accounts.models.PaymentHistory.clean`) -/

/-- The refund-class statuses (`PaymentStatus.REFUNDED`,
`PaymentStatus.PARTIAL_REFUND`). -/
def refund_statuses : List String := ["refunded", "partial_refund"]

/-- `accounts.models.PaymentHistory`, restricted to the fields `clean`
reads: the decimal `amount` and `processor_fee` as integer cents, the
status choice string, and the payment datetime as an integer timestamp
(the field is non-null, but `clean` guards on it, so it is embedded as an
option). -/
structure PaymentHistory where
  amount : Int
  processor_fee : Int := 0
  payment_status : String
  payment_date : Option Int := none
deriving Repr, DecidableEq

/-- The distinct `ValidationError`s `PaymentHistory.clean` can raise, in
source order: negative amount on a non-refund status, negative processor
fee, non-refund status on a negative amount, and a future payment date on a
non-pending status. -/
inductive PaymentValidationError
  | amount_error
  | processor_fee_error
  | payment_status_error
  | payment_date_error
deriving Repr, DecidableEq

/-- `accounts.models.PaymentHistory.clean` (`now` is `timezone.now()`): the
four checks in source order, raising at the first violated one. -/
def PaymentHistory.clean (now : Int) (p : PaymentHistory) :
    Except PaymentValidationError Unit :=
  if refund_statuses.contains p.payment_status = false ∧ p.amount < 0 then
    Except.error .amount_error
  else if p.processor_fee < 0 then
    Except.error .processor_fee_error
  else if p.amount < 0 ∧ refund_statuses.contains p.payment_status = false then
    Except.error .payment_status_error
  else
    match p.payment_date with
    | some d =>
        if d > now ∧ p.payment_status ≠ "pending" then
          Except.error .payment_date_error
        else Except.ok ()
    | none => Except.ok ()

/-- C6: a non-refund-class status with a negative amount fails validation
(with the negative-amount error); a future payment date with any status
other than pending fails validation; and a record violating neither rule
passes both checks — its validation never raises the amount, status or
date error. -/
theorem C6_payment_history_validation (now : Int) (p : PaymentHistory) :
    (refund_statuses.contains p.payment_status = false → p.amount < 0 →
      p.clean now = Except.error .amount_error) ∧
    (∀ d, p.payment_date = some d → d > now → p.payment_status ≠ "pending" →
      p.clean now ≠ Except.ok ()) ∧
    (¬ (refund_statuses.contains p.payment_status = false ∧ p.amount < 0) →
      ¬ (∃ d, p.payment_date = some d ∧ d > now ∧ p.payment_status ≠ "pending") →
      p.clean now ≠ Except.error .amount_error ∧
      p.clean now ≠ Except.error .payment_status_error ∧
      p.clean now ≠ Except.error .payment_date_error) := by
  refine ⟨?_, ?_, ?_⟩
  · intro hs ha
    unfold PaymentHistory.clean
    rw [if_pos ⟨hs, ha⟩]
  · intro d hd hfut hst
    simp only [PaymentHistory.clean, hd]
    split
    · simp
    · split
      · simp
      · split
        · simp
        · simp [hfut, hst]
  · intro h1 h2
    simp only [PaymentHistory.clean]
    split
    · exact absurd ‹_› h1
    · split
      · simp
      · split
        · rename_i hsplit
          exact absurd ⟨hsplit.2, hsplit.1⟩ h1
        · rcases hpd : p.payment_date with _ | d
          · simp
          · have : ¬ (d > now ∧ p.payment_status ≠ "pending") := by
              intro hc
              exact h2 ⟨d, hpd, hc.1, hc.2⟩
            simp [hpd, this]

/-- Witness for C6: a completed payment of amount −10 fails with the
negative-amount error; a completed payment dated in the future fails; a
completed, non-negative, past-dated payment passes the three checks. -/
theorem C6_payment_history_validation_witness :
    PaymentHistory.clean 1000
        { amount := -10, payment_status := "completed" } =
      Except.error .amount_error ∧
    PaymentHistory.clean 1000
        { amount := 50, payment_status := "completed",
          payment_date := some 2000 } ≠ Except.ok () ∧
    (PaymentHistory.clean 1000
        { amount := 50, payment_status := "completed",
          payment_date := some 500 } ≠ Except.error .amount_error ∧
     PaymentHistory.clean 1000
        { amount := 50, payment_status := "completed",
          payment_date := some 500 } ≠ Except.error .payment_status_error ∧
     PaymentHistory.clean 1000
        { amount := 50, payment_status := "completed",
          payment_date := some 500 } ≠ Except.error .payment_date_error) := by
  refine ⟨?_, ?_, ?_⟩
  · exact (C6_payment_history_validation 1000
      { amount := -10, payment_status := "completed" }).1 (by decide) (by decide)
  · exact (C6_payment_history_validation 1000
      { amount := 50, payment_status := "completed",
        payment_date := some 2000 }).2.1 2000 rfl (by decide) (by decide)
  · exact (C6_payment_history_validation 1000
      { amount := 50, payment_status := "completed",
        payment_date := some 500 }).2.2 (by decide)
      (by rintro ⟨d, hd, hfut, _⟩; cases hd; revert hfut; decide)

/-! ## Club creation quota (`clubs.models.Club.clean`) -/

/-- The distinct `ValidationError`s `Club.clean` can raise, in source
order. -/
inductive ClubValidationError
  | duplicate_name
  | instagram_handle_error
  | twitter_handle_error
  | quota_exceeded
deriving Repr, DecidableEq

/-- `clubs.models.Club.clean`: name uniqueness within the tenant over the
unfiltered `Club.all_objects` universe (excluding the club's own pk), the
social-handle checks, then — for a new club (`not self.pk`) whose tenant
has a truthy `max_clubs` — the quota check, again over the unfiltered
universe, raising when the tenant's existing club count has reached the
quota.  `all_clubs` is `Club.all_objects`; `tenant` is the row referenced by
`club.tenant_id`; on `Nat` the two source truthiness tests (`getattr(...)`
and `if max_allowed and max_allowed > 0`) both collapse to `0 < m`. -/
def Club.clean (all_clubs : List Club) (tenant : TenantAccount) (club : Club) :
    Except ClubValidationError Unit :=
  if (all_clubs.filter (fun c =>
      c.name == club.name && c.tenant_id == club.tenant_id &&
        !(c.pk == club.pk))).isEmpty = false then
    Except.error .duplicate_name
  else if club.instagram_handle ≠ "" ∧ starts_with club.instagram_handle "@" then
    Except.error .instagram_handle_error
  else if club.twitter_handle ≠ "" ∧ starts_with club.twitter_handle "@" then
    Except.error .twitter_handle_error
  else
    match club.pk, tenant.max_clubs with
    | none, some max_allowed =>
        if 0 < max_allowed then
          if (all_clubs.filter (fun c =>
              c.tenant_id == club.tenant_id)).length ≥ max_allowed then
            Except.error .quota_exceeded
          else Except.ok ()
        else Except.ok ()
    | _, _ => Except.ok ()

/-- C7: for a new club whose name and handles pass the earlier checks and
whose tenant carries a positive `max_clubs` quota, validation fails exactly
when the tenant's club count over the unfiltered universe has reached the
quota, and succeeds exactly when it is still below it. -/
theorem C7_club_quota (all_clubs : List Club) (tenant : TenantAccount)
    (club : Club) (m : Nat)
    (hpk : club.pk = none)
    (hm : tenant.max_clubs = some m) (hm0 : 0 < m)
    (hname : (all_clubs.filter (fun c =>
      c.name == club.name && c.tenant_id == club.tenant_id &&
        !(c.pk == club.pk))).isEmpty = true)
    (hig : starts_with club.instagram_handle "@" = false)
    (htw : starts_with club.twitter_handle "@" = false) :
    (Club.clean all_clubs tenant club = Except.error .quota_exceeded ↔
      m ≤ (all_clubs.filter (fun c => c.tenant_id == club.tenant_id)).length) ∧
    (Club.clean all_clubs tenant club = Except.ok () ↔
      (all_clubs.filter (fun c => c.tenant_id == club.tenant_id)).length < m) := by
  have hclean : Club.clean all_clubs tenant club =
      if (all_clubs.filter (fun c =>
          c.tenant_id == club.tenant_id)).length ≥ m then
        Except.error .quota_exceeded
      else Except.ok () := by
    unfold Club.clean
    rw [if_neg (by simp [hname]), if_neg (by simp [hig]), if_neg (by simp [htw]),
      hpk, hm]
    simp only [hm0, ite_true]
  by_cases hq : (all_clubs.filter (fun c =>
      c.tenant_id == club.tenant_id)).length ≥ m
  · rw [hclean, if_pos hq]
    simp [hq, Nat.not_lt_of_le hq]
  · rw [hclean, if_neg hq]
    simp [hq, Nat.lt_of_not_le hq]

/-- The five existing clubs of tenant 1 used by the C7 witness. -/
def wClubs : List Club :=
  [{ pk := some 1, name := "a", tenant_id := 1 },
   { pk := some 2, name := "b", tenant_id := 1 },
   { pk := some 3, name := "c", tenant_id := 1 },
   { pk := some 4, name := "d", tenant_id := 1 },
   { pk := some 5, name := "e", tenant_id := 1 }]

/-- Tenant with a `max_clubs` quota of 5 used by the C7 witness. -/
def wTenant : TenantAccount :=
  { id := 1, tenant_slug := "acme", is_active := true, max_clubs := some 5 }

/-- Witness for C7: with `max_clubs = 5` and exactly 5 existing clubs,
creating a 6th fails with the quota error; with only the first 4 existing,
creating the 5th passes validation. -/
theorem C7_club_quota_witness :
    Club.clean wClubs wTenant { pk := none, name := "f", tenant_id := 1 } =
      Except.error .quota_exceeded ∧
    Club.clean (wClubs.take 4) wTenant { pk := none, name := "e", tenant_id := 1 } =
      Except.ok () := by
  constructor
  · exact (C7_club_quota wClubs wTenant { pk := none, name := "f", tenant_id := 1 }
      5 rfl rfl (by decide) (by decide) (by decide) (by decide)).1.2 (by decide)
  · exact (C7_club_quota (wClubs.take 4) wTenant
      { pk := none, name := "e", tenant_id := 1 }
      5 rfl rfl (by decide) (by decide) (by decide) (by decide)).2.2 (by decide)

/-! ## Membership status (`accounts.models.MemberAccount`,
`accounts.managers.MemberAccountManager`) -/

/-- `accounts.models.MemberAccount`, restricted to the fields the status
derivation and its manager read: the owning tenant, the `is_active` flag
and the optional membership end date (a day ordinal). -/
structure MemberAccount where
  id : Nat
  tenant_id : Nat
  is_active : Bool
  membership_end_date : Option Nat := none
deriving Repr, DecidableEq

/-- `MemberAccount.is_membership_active`: no end date means an indefinite
membership; otherwise the end date must be on or after today (inclusive
comparison `membership_end_date >= timezone.now().date()`). -/
def MemberAccount.is_membership_active (today : Nat) (a : MemberAccount) : Bool :=
  match a.membership_end_date with
  | none => true
  | some d => today ≤ d

/-- `MemberAccount.get_membership_status`. -/
def MemberAccount.get_membership_status (today : Nat) (a : MemberAccount) : String :=
  if a.is_active = false then "inactive"
  else if a.is_membership_active today = false then "expired"
  else "active"

/-- The model meta of `MemberAccount`: it carries a `tenant` field. -/
def member_account_meta : ModelMeta MemberAccount :=
  { tenant_field := some MemberAccount.tenant_id }

/-- `accounts.managers.MemberAccountManager.get_by_status`: filter the
(tenant-scoped) default queryset by the requested membership status;
unknown statuses yield the empty queryset (`none()`). -/
def MemberAccountManager.get_by_status (ctx : ContextStore)
    (all_objects : List MemberAccount) (today : Nat) (status : String) :
    List MemberAccount :=
  let queryset := TenantAwareManager.get_queryset member_account_meta ctx all_objects
  if status == "inactive" then
    queryset.filter (fun a => a.is_active == false)
  else if status == "expired" then
    queryset.filter (fun a => a.is_active && a.membership_end_date.isSome &&
      (match a.membership_end_date with
       | some d => decide (d < today)
       | none => false))
  else if status == "active" then
    queryset.filter (fun a => a.is_active &&
      (a.membership_end_date.isNone ||
       (match a.membership_end_date with
        | some d => decide (today ≤ d)
        | none => false)))
  else []

/-- C8: the derived status of a member account is "active" exactly when the
`is_active` flag is set and there is no end date or the end date is on or
after today — in particular an account ending exactly today is "active" and
not "expired"; the manager's status query agrees: membership in the
"active" result is the scoped queryset restricted to that same predicate,
and an account ending today never appears in the "expired" result. -/
theorem C8_membership_status_boundary (today : Nat) (ctx : ContextStore)
    (all_objects : List MemberAccount) (a : MemberAccount) :
    (a.get_membership_status today = "active" ↔
      a.is_active = true ∧ (a.membership_end_date = none ∨
        ∃ d, a.membership_end_date = some d ∧ today ≤ d)) ∧
    (a.is_active = true → a.membership_end_date = some today →
      a.get_membership_status today = "active" ∧
      a.get_membership_status today ≠ "expired") ∧
    (a ∈ MemberAccountManager.get_by_status ctx all_objects today "active" ↔
      a ∈ TenantAwareManager.get_queryset member_account_meta ctx all_objects ∧
      a.is_active = true ∧ (a.membership_end_date = none ∨
        ∃ d, a.membership_end_date = some d ∧ today ≤ d)) ∧
    (a.membership_end_date = some today →
      a ∉ MemberAccountManager.get_by_status ctx all_objects today "expired") := by
  refine ⟨?_, ?_, ?_, ?_⟩
  · rcases ha : a.is_active with _ | _
    · simp [MemberAccount.get_membership_status, ha]
    · rcases hd : a.membership_end_date with _ | d
      · simp [MemberAccount.get_membership_status,
          MemberAccount.is_membership_active, ha, hd]
      · by_cases hle : today ≤ d
        · simp [MemberAccount.get_membership_status,
            MemberAccount.is_membership_active, ha, hd, hle]
        · simp [MemberAccount.get_membership_status,
            MemberAccount.is_membership_active, ha, hd, hle]
  · intro ha hd
    constructor
    · simp [MemberAccount.get_membership_status,
        MemberAccount.is_membership_active, ha, hd]
    · simp [MemberAccount.get_membership_status,
        MemberAccount.is_membership_active, ha, hd]
  · rcases hd : a.membership_end_date with _ | d
    · simp [MemberAccountManager.get_by_status, List.mem_filter, hd]
    · simp [MemberAccountManager.get_by_status, List.mem_filter, hd]
  · intro hd
    simp [MemberAccountManager.get_by_status, List.mem_filter, hd]

/-- Member account of tenant 1 whose membership ends exactly today (day
700) used by the C8 witness. -/
def wMember : MemberAccount :=
  { id := 20, tenant_id := 1, is_active := true, membership_end_date := some 700 }

/-- Witness for C8 at day 700: the account ending today is classified
"active", not "expired", appears in the manager's "active" result and not
in its "expired" result. -/
theorem C8_membership_status_boundary_witness :
    wMember.get_membership_status 700 = "active" ∧
    wMember.get_membership_status 700 ≠ "expired" ∧
    wMember ∈ MemberAccountManager.get_by_status exCtx [wMember] 700 "active" ∧
    wMember ∉ MemberAccountManager.get_by_status exCtx [wMember] 700 "expired" := by
  refine ⟨?_, ?_, ?_, ?_⟩
  · exact ((C8_membership_status_boundary 700 exCtx [wMember] wMember).2.1
      rfl rfl).1
  · exact ((C8_membership_status_boundary 700 exCtx [wMember] wMember).2.1
      rfl rfl).2
  · exact (C8_membership_status_boundary 700 exCtx [wMember] wMember).2.2.1.2
      ⟨by decide, rfl, Or.inr ⟨700, rfl, le_refl 700⟩⟩
  · exact (C8_membership_status_boundary 700 exCtx [wMember] wMember).2.2.2 rfl

end OneSpirit
